import Mathlib

/-! # Shallow embedding of the Solana voting program (`src/Voting.rs`)

The program is a single entrypoint `process_instruction` that dispatches on an
8-byte instruction discriminator to one of three handlers: create-poll
("create_voting"), cast-vote ("vote") and update-vote ("update_vote").

Modelling decisions (each noted again at the definition it concerns):

* Byte strings (instruction payloads, titles, discriminators, seeds) are
  `List Nat`.  Titles are kept as their byte lists throughout, matching the
  Rust code's use of `String::len` (byte length) and `String::as_bytes`
  (the byte list) everywhere a title is inspected.
* Program-derived addresses are modelled freely: the host's derivation
  (`Pubkey::find_program_address`, an external collaborator, out of scope of
  the repository) is deterministic and collision-resistant, so an address is
  represented by the seed list and program id it was derived from, and the
  bump is fixed.  Two derivations agree exactly when their seeds agree, which
  is the behaviour of the real derivation up to hash collisions.
* The five 8-byte discriminators are the first 8 bytes of the real
  keccak-256 digests of the corresponding strings, precomputed (the program
  recomputes them on every call; they are constants).
* Account data is modelled at the record level (`AccountData`), with the
  leading 8 discriminator bytes exposed by `head8` and borsh decoding of the
  two record shapes modelled by `decodePollData` / `decodeVoterData`,
  including the successful decode of a fresh zero-initialised allocation.
* `invoke_signed` + `create_account` (external collaborators) are modelled by
  their observable success condition on the program side: the address derived
  from the supplied signer seeds must equal the new account that has to sign.
  The host also fails creation when the target account already exists; that
  host-side collision is outside the modelled state and is not needed by any
  theorem below.
* Rust panics abort the invocation and are modelled by the `Outcome.panic`
  constructor.  Two sources exist.  First, `Option::unwrap` on `None` in the
  dispatcher's read of the first 8 payload bytes.  Second, the `RefCell`
  double borrow at each handler's write-back: CastVote still holds the `Ref`
  guard bound at line 290 when it calls `borrow_mut()` on the same cell at
  line 296, UpdateVote still holds the lifetime-extended guard from line 367
  at line 375, and CreatePoll still holds the guard from line 187 at line
  194 (unreachable in practice, since its allocation always fails first).
  `RefCell::borrow_mut` panics while a shared borrow is outstanding, so a
  validated CastVote or UpdateVote aborts at the write instead of writing
  its record.  (The handlers' account-data reads are total over the
  record-level `AccountData` model.)
* UTF-8 validity of decoded strings is not modelled (titles are byte lists);
  no claim depends on it.
-/

deriving instance DecidableEq for Except

namespace Voting

/-- Byte list of a Lean string literal; for the ASCII literals used as seed
domain separators this is exactly Rust's `b"..."` / `String::as_bytes`. -/
def strBytes (s : String) : List Nat := s.data.map Char.toNat

/-! ## Discriminators

`src/Voting.rs` lines 100-105: each tag is `&hash(b"...").0[..8]` with
`hash` = keccak-256.  The byte values below are the first 8 bytes of the
real keccak-256 digests, precomputed. -/

/-- Tag `hash(b"instruction:create_voting").0[..8]`. -/
def create_voting_ix : List Nat := [68, 240, 219, 178, 99, 147, 42, 139]

/-- Tag `hash(b"instruction:vote").0[..8]`. -/
def vote_ix : List Nat := [156, 177, 116, 223, 171, 21, 181, 52]

/-- Tag `hash(b"instruction:update_vote").0[..8]`. -/
def update_vote_ix : List Nat := [63, 162, 103, 31, 90, 173, 26, 118]

/-- Tag `hash(b"account:vote").0[..8]`. -/
def vote_acc : List Nat := [20, 241, 215, 118, 48, 90, 178, 191]

/-- Tag `hash(b"account:user_voting").0[..8]`. -/
def user_voting_acc : List Nat := [119, 205, 131, 16, 29, 133, 60, 146]

/-- Constant `MAX_VOTING_TIME` (line 96): two weeks in seconds. -/
def MAX_VOTING_TIME : Nat := 1209600

/-! ## Addresses -/

/-- Addresses.  External (ed25519) keys are `ext`; the system program's
well-known constant address is `sysprog`; a program-derived address is
represented freely by the seed byte-lists and the deriving program's id,
modelling the determinism and collision resistance of the host's
derivation. -/
inductive Pubkey
  | ext : Nat → Pubkey
  | sysprog : Pubkey
  | pda : List (List Nat) → Nat → Pubkey
deriving DecidableEq, Repr

/-- The raw byte string of a key, as used when a key is itself a seed
(`user.key.as_ref()`).  An injective stand-in for the 32-byte encoding. -/
def Pubkey.raw : Pubkey → List Nat
  | .ext n => [0, n]
  | .sysprog => [1]
  | .pda seeds pid => 2 :: pid :: seeds.length :: seeds.flatMap (fun s => s.length :: s)

/-- Model of the host's `Pubkey::create_program_address` (external
collaborator, spec §4.2): deterministic and collision-resistant, modelled
freely by the seeds themselves. -/
def create_program_address (seeds : List (List Nat)) (program_id : Nat) : Pubkey :=
  .pda seeds program_id

/-- Model of the host's `Pubkey::find_program_address`: appends the canonical
bump (fixed at 255 in the model, as the bump value is purely structural) and
returns it alongside the address; `find_program_address s p =
(create_program_address (s ++ [[bump]]) p, bump)` as on the host. -/
def find_program_address (seeds : List (List Nat)) (program_id : Nat) : Pubkey × Nat :=
  (create_program_address (seeds ++ [[255]]) program_id, 255)

/-! ## Records and account data -/

/-- Rust `struct VoteMainAccount` (lines 41-48); the poll record.  The title is
its byte list. -/
structure VoteMainAccount where
  discriminator : List Nat
  creator : Pubkey
  starts_at : Nat
  ends_at : Nat
  title : List Nat
deriving DecidableEq, Repr

/-- Rust `struct UserVotingAccount` (lines 50-56); the voter record. -/
structure UserVotingAccount where
  discriminator : List Nat
  last_time_voted : Nat
  vote_status : Bool
  voted_to : List Nat
deriving DecidableEq, Repr

/-- Record-level model of an account's data: a fresh zero-initialised
allocation, a stored poll record, or a stored voter record. -/
inductive AccountData
  | empty
  | poll : VoteMainAccount → AccountData
  | voter : UserVotingAccount → AccountData
deriving DecidableEq, Repr

/-- The leading 8 bytes of the account data (`data.get(..=7)` /
`data.get(..8)` on the stored bytes).  A fresh allocation is zero-filled;
a stored record starts with its discriminator. -/
def head8 : AccountData → List Nat
  | .empty => List.replicate 8 0
  | .poll r => r.discriminator
  | .voter r => r.discriminator

/-- Errors raised at the `ProgramError` level. -/
inductive Errors
  | invalidStartingTime
  | invalidEndingTime
  | maxVotingTimeExceeded
  | invalidSystemProgram
  | invalidPdaAddress
  | userSigningNeeded
  | usersAccountMustBeMutable
  | pdasAccountMustBeMutable
  | titleInvalidLength
  | invalidAccountOwner
  | votingNotStarted
  | votingEnded
deriving DecidableEq, Repr

/-- Numeric code `Errors::X as u32`: the stable numeric code is the enum ordinal in
declaration order (lines 58-84). -/
def Errors.code : Errors → Nat
  | .invalidStartingTime => 0
  | .invalidEndingTime => 1
  | .maxVotingTimeExceeded => 2
  | .invalidSystemProgram => 3
  | .invalidPdaAddress => 4
  | .userSigningNeeded => 5
  | .usersAccountMustBeMutable => 6
  | .pdasAccountMustBeMutable => 7
  | .titleInvalidLength => 8
  | .invalidAccountOwner => 9
  | .votingNotStarted => 10
  | .votingEnded => 11

/-- Values of `ProgramError` the entrypoint can return: `Custom(code)` carried
symbolically, the builtin kinds used by the program, and the error surfaced
when the cross-program `create_account` invocation is rejected by the host
because the signer seeds do not authorize the new account's address. -/
inductive ProgErr
  | custom : Errors → ProgErr
  | invalidAccountData
  | invalidInstructionData
  | notEnoughAccountKeys
  | borshIoError
  | missingRequiredSignature
deriving DecidableEq, Repr

/-- Decode account data as a `VoteMainAccount`
(`try_from_slice_unchecked::<VoteMainAccount>`): a stored poll record
decodes to itself; a fresh zero-initialised allocation decodes to the
all-zero record (borsh reads zeroed discriminator/creator/timestamps and an
empty title); voter-record bytes do not form a valid poll record (and every
call site has already checked the leading tag). -/
def decodePollData : AccountData → Except ProgErr VoteMainAccount
  | .empty => .ok ⟨List.replicate 8 0, .ext 0, 0, 0, []⟩
  | .poll r => .ok r
  | .voter _ => .error .borshIoError

/-- Decode account data as a `UserVotingAccount`
(`try_from_slice_unchecked::<UserVotingAccount>`), symmetrically. -/
def decodeVoterData : AccountData → Except ProgErr UserVotingAccount
  | .empty => .ok ⟨List.replicate 8 0, 0, false, []⟩
  | .voter r => .ok r
  | .poll _ => .error .borshIoError

/-! ## Accounts and environment -/

/-- The fields of `AccountInfo` the program reads. -/
structure AccountInfo where
  key : Pubkey
  is_signer : Bool
  is_writable : Bool
  owner : Pubkey
  data : AccountData
deriving DecidableEq, Repr

/-- External collaborators: the clock sysvar (`Clock::get().unix_timestamp
as u32`) and the rent sysvar (`Rent::get().minimum_balance`). -/
structure Env where
  current_time : Nat
  minBalance : Nat → Nat

/-! ## Instruction payload decoding (borsh) -/

/-- Rust `struct CreateVotingInstruction` (lines 22-27). -/
structure CreateVotingInstruction where
  starts_at : Nat
  ends_at : Nat
  title : List Nat
deriving DecidableEq, Repr

/-- Rust `struct VoteInstruction` (lines 29-33). -/
structure VoteInstruction where
  vote : Bool
  vote_title : List Nat
deriving DecidableEq, Repr

/-- Rust `struct UpdateVoteInstruction` (lines 35-39). -/
structure UpdateVoteInstruction where
  vote : Bool
  vote_title : List Nat
deriving DecidableEq, Repr

/-- Borsh: a `u32` is 4 little-endian bytes. -/
def readU32LE : List Nat → Option (Nat × List Nat)
  | b0 :: b1 :: b2 :: b3 :: rest =>
      some (b0 + b1 * 256 + b2 * 65536 + b3 * 16777216, rest)
  | _ => none

/-- Borsh: a `bool` is one byte, `0` or `1`; anything else is malformed. -/
def readBool : List Nat → Option (Bool × List Nat)
  | 0 :: rest => some (false, rest)
  | 1 :: rest => some (true, rest)
  | _ => none

/-- Borsh: a `String` is a `u32` length followed by that many bytes. -/
def readStr (l : List Nat) : Option (List Nat × List Nat) :=
  match readU32LE l with
  | none => none
  | some (n, rest) => if n ≤ rest.length then some (rest.take n, rest.drop n) else none

/-- Borsh decode of `CreateVotingInstruction`
(`try_from_slice_unchecked`, which ignores trailing bytes). -/
def decodeCreateVotingInstruction (l : List Nat) : Option CreateVotingInstruction :=
  match readU32LE l with
  | none => none
  | some (s, r1) =>
    match readU32LE r1 with
    | none => none
    | some (e, r2) =>
      match readStr r2 with
      | none => none
      | some (t, _) => some ⟨s, e, t⟩

/-- Borsh decode of `VoteInstruction`. -/
def decodeVoteInstruction (l : List Nat) : Option VoteInstruction :=
  match readBool l with
  | none => none
  | some (v, r1) =>
    match readStr r1 with
    | none => none
    | some (t, _) => some ⟨v, t⟩

/-- Borsh decode of `UpdateVoteInstruction` (same shape as
`VoteInstruction`). -/
def decodeUpdateVoteInstruction (l : List Nat) : Option UpdateVoteInstruction :=
  match readBool l with
  | none => none
  | some (v, r1) =>
    match readStr r1 with
    | none => none
    | some (t, _) => some ⟨v, t⟩

/-! ## Effects

A handler's successful run is summarised by the storage operations it
requested: the cross-program allocation calls it issued and the records it
wrote.  An error carries no effect: the program writes account data only on
its success path, and the host commits all-or-nothing. -/

/-- One `invoke_signed(create_account(..))` request: payer, the new account
to create, lamports, size, owner program, and the signer seed set passed to
`invoke_signed` (the last seed being the one-byte bump). -/
structure AllocRequest where
  payer : Pubkey
  newAccount : Pubkey
  lamports : Nat
  space : Nat
  owner : Nat
  signerSeeds : List (List Nat)
deriving DecidableEq, Repr

/-- The storage effect of a successful handler run. -/
structure Effect where
  allocs : List AllocRequest
  pollWrite : Option VoteMainAccount
  voterWrite : Option UserVotingAccount
deriving DecidableEq, Repr

/-- The result of one invocation: success with its storage effect, a
`ProgramError`, or an abort (a Rust panic: the dispatcher's `unwrap` on a
payload shorter than 8 bytes, or the `RefCell` double borrow at a handler's
write-back — see the module comment).  No handler ever reaches a success
effect in this program: CreatePoll always fails at the allocation, and the
other two handlers abort at the write-back. -/
inductive Outcome
  | ok : Effect → Outcome
  | err : ProgErr → Outcome
  | panic : Outcome
deriving DecidableEq, Repr

/-- Whether an outcome is a `ProgramError` (neither a success effect nor an
abort). -/
def Outcome.isErr : Outcome → Bool
  | .err _ => true
  | _ => false

/-! ## Seed sets, as written at each derivation site -/

/-- CreatePoll's poll-address derivation seeds (lines 136-139):
`[b"voting_account", title]`. -/
def createPollSeeds (title : List Nat) : List (List Nat) :=
  [strBytes "voting_account", title]

/-- The poll-address seeds CastVote (lines 223-226) and UpdateVote
(lines 329-332) recompute from the instruction's title:
`[b"vote_account", vote_title]`. -/
def votePollSeeds (title : List Nat) : List (List Nat) :=
  [strBytes "vote_account", title]

/-- Voter-record address seeds (lines 254-258 and 340-344):
`[b"user_vote", title, user.key]`. -/
def voterRecordSeeds (title : List Nat) (userRaw : List Nat) : List (List Nat) :=
  [strBytes "user_vote", title, userRaw]

/-- The signer seed set CreatePoll passes to `invoke_signed`
(lines 178-183): `[b"new_voting_account", title, user.key, [bump]]`. -/
def createPollSignerSeeds (title : List Nat) (userRaw : List Nat) (bump : Nat) :
    List (List Nat) :=
  [strBytes "new_voting_account", title, userRaw, [bump]]

/-! ## Handlers -/

/-- The create-poll checks and effect (lines 119-196) after the payload has
been decoded.  Checks and allocation request appear in source order; the
guard before the write section is the host-side verification that the
signer seeds authorize the address being created (see the module comment).
The write section (lines 187-194) first decodes the freshly allocated
account through the `Ref` guard bound at line 187 (a failure propagates via
`?`), builds the poll record, and then panics: the `borrow_mut()` at line
194 runs while that guard is still live, so the record is never written. -/
def createPollChecked (program_id : Nat) (user pda system_program : AccountInfo)
    (env : Env) (ix_data : CreateVotingInstruction) : Outcome :=
  if user.is_signer = false then .err (.custom .userSigningNeeded)
  else if user.is_writable = false then .err (.custom .usersAccountMustBeMutable)
  else if pda.is_writable = false then .err (.custom .pdasAccountMustBeMutable)
  else if system_program.key ≠ Pubkey.sysprog then .err (.custom .invalidSystemProgram)
  else
    let fpa := find_program_address (createPollSeeds ix_data.title) program_id
    if fpa.1 ≠ pda.key then .err (.custom .invalidPdaAddress)
    else if ix_data.starts_at < env.current_time then .err (.custom .invalidStartingTime)
    else if ix_data.ends_at ≤ ix_data.starts_at then .err (.custom .invalidEndingTime)
    else if ix_data.title.length < 10 then .err (.custom .titleInvalidLength)
    else if MAX_VOTING_TIME < ix_data.ends_at - ix_data.starts_at then
      .err (.custom .maxVotingTimeExceeded)
    else
      let space := 8 + 32 + 4 + 4 + (4 + 50)
      let req : AllocRequest :=
        { payer := user.key, newAccount := fpa.1,
          lamports := env.minBalance space, space := space, owner := program_id,
          signerSeeds := createPollSignerSeeds ix_data.title user.key.raw fpa.2 }
      if create_program_address req.signerSeeds program_id ≠ req.newAccount then
        .err .missingRequiredSignature
      else
        match decodePollData AccountData.empty with
        | .error e => .err e
        | .ok _ => .panic

/-- The create-poll handler (lines 109-196), from the point where the
dispatcher has matched `create_voting_ix`; `data` is
`_instruction_data[8..]`: pop the three accounts, decode the payload
(lines 116-117), then run the checks. -/
def createPollH (program_id : Nat) (accounts : List AccountInfo) (env : Env)
    (data : List Nat) : Outcome :=
  match accounts with
  | user :: pda :: system_program :: _ =>
    match decodeCreateVotingInstruction data with
    | none => .err .borshIoError
    | some ix_data => createPollChecked program_id user pda system_program env ix_data
  | _ => .err .notEnoughAccountKeys

/-- The cast-vote checks and effect (lines 222-300) after the payload has
been decoded: the poll address is recomputed from the instruction's title
with the `"vote_account"` separator, and the voter address from the decoded
poll record's stored title.  After the allocation the write section
(lines 290-300) decodes the freshly allocated voter account through the
`Ref` guard bound at line 290 (a failure propagates via `?`), builds the
voter record, and then panics: the `borrow_mut()` at line 296 runs on the
same cell while that guard is still live, so the record is never
written. -/
def castVoteChecked (program_id : Nat)
    (user voting_account user_vote_account : AccountInfo) (env : Env)
    (ix_data : VoteInstruction) : Outcome :=
  let vfpa := find_program_address (votePollSeeds ix_data.vote_title) program_id
  if voting_account.key ≠ vfpa.1 then .err (.custom .invalidPdaAddress)
  else if voting_account.owner ≠ Pubkey.ext program_id then
    .err (.custom .invalidAccountOwner)
  else if head8 voting_account.data ≠ vote_acc then .err .invalidAccountData
  else
    match decodePollData voting_account.data with
    | .error e => .err e
    | .ok voting_account_data =>
      if env.current_time < voting_account_data.starts_at then
        .err (.custom .votingNotStarted)
      else if voting_account_data.ends_at < env.current_time then
        .err (.custom .votingEnded)
      else
        let ufpa := find_program_address
          (voterRecordSeeds voting_account_data.title user.key.raw) program_id
        if ufpa.1 ≠ user_vote_account.key then .err (.custom .invalidPdaAddress)
        else
          let space := 8 + 4 + 1 + (4 + 50)
          let req : AllocRequest :=
            { payer := user.key, newAccount := user_vote_account.key,
              lamports := env.minBalance space, space := space, owner := program_id,
              signerSeeds :=
                voterRecordSeeds voting_account_data.title user.key.raw ++ [[ufpa.2]] }
          if create_program_address req.signerSeeds program_id ≠ req.newAccount then
            .err .missingRequiredSignature
          else
            match decodeVoterData AccountData.empty with
            | .error e => .err e
            | .ok _ => .panic

/-- The cast-vote handler (lines 197-300); `data` is
`_instruction_data[8..]`: pop the four accounts, run the four account-flag
checks (lines 203-217), decode the payload (lines 219-220), then run the
remaining checks. -/
def castVoteH (program_id : Nat) (accounts : List AccountInfo) (env : Env)
    (data : List Nat) : Outcome :=
  match accounts with
  | user :: voting_account :: user_vote_account :: system_program :: _ =>
    if user.is_signer = false then .err (.custom .userSigningNeeded)
    else if user.is_writable = false then .err (.custom .usersAccountMustBeMutable)
    else if user_vote_account.is_writable = false then
      .err (.custom .pdasAccountMustBeMutable)
    else if system_program.key ≠ Pubkey.sysprog then .err (.custom .invalidSystemProgram)
    else
      match decodeVoteInstruction data with
      | none => .err .borshIoError
      | some ix_data =>
        castVoteChecked program_id user voting_account user_vote_account env ix_data
  | _ => .err .notEnoughAccountKeys

/-- The update-vote checks and effect (lines 324-377) after the payload has
been decoded.  Both the poll address and the voter address are recomputed
from the instruction's `vote_title`.  The write section (lines 367-375)
decodes the existing voter record through the lifetime-extended `Ref` guard
bound at line 367 (a failure propagates via `?`), overwrites `vote_status`
and `last_time_voted` on the local copy, and then panics: the
`borrow_mut()` at line 375 runs on the same cell while that guard is still
live, so the record is never rewritten. -/
def updateVoteChecked (program_id : Nat)
    (user voting_account user_vote_account : AccountInfo) (env : Env)
    (ix_data : UpdateVoteInstruction) : Outcome :=
  if ix_data.vote_title.length < 10 then .err (.custom .titleInvalidLength)
  else
    let vfpa := find_program_address (votePollSeeds ix_data.vote_title) program_id
    if voting_account.key ≠ vfpa.1 then .err (.custom .invalidPdaAddress)
    else
      let ufpa := find_program_address
        (voterRecordSeeds ix_data.vote_title user.key.raw) program_id
      if user_vote_account.key ≠ ufpa.1 then .err (.custom .invalidPdaAddress)
      else if head8 voting_account.data ≠ vote_acc then .err .invalidAccountData
      else
        match decodePollData voting_account.data with
        | .error e => .err e
        | .ok voting_account_data =>
          if env.current_time < voting_account_data.starts_at then
            .err (.custom .votingNotStarted)
          else if voting_account_data.ends_at ≤ env.current_time then
            .err (.custom .votingEnded)
          else if head8 user_vote_account.data ≠ user_voting_acc then
            .err .invalidAccountData
          else
            match decodeVoterData user_vote_account.data with
            | .error e => .err e
            | .ok _ => .panic

/-- The update-vote handler (lines 301-377); `data` is
`_instruction_data[8..]`: pop the three accounts, run the signer, ownership
and writability checks (lines 306-320), decode the payload (lines 322-323),
then run the remaining checks. -/
def updateVoteH (program_id : Nat) (accounts : List AccountInfo) (env : Env)
    (data : List Nat) : Outcome :=
  match accounts with
  | user :: voting_account :: user_vote_account :: _ =>
    if user.is_signer = false then .err (.custom .userSigningNeeded)
    else if voting_account.owner ≠ Pubkey.ext program_id then
      .err (.custom .invalidAccountOwner)
    else if user_vote_account.owner ≠ Pubkey.ext program_id then
      .err (.custom .invalidAccountOwner)
    else if user_vote_account.is_writable = false then
      .err (.custom .pdasAccountMustBeMutable)
    else
      match decodeUpdateVoteInstruction data with
      | none => .err .borshIoError
      | some ix_data =>
        updateVoteChecked program_id user voting_account user_vote_account env ix_data
  | _ => .err .notEnoughAccountKeys

/-! ## The dispatcher -/

/-- Model of `_instruction_data.get(..=7)`: the first 8 bytes, or `none` when the
payload is shorter than 8 bytes. -/
def ixDis8 (d : List Nat) : Option (List Nat) :=
  if 8 ≤ d.length then some (d.take 8) else none

/-- Entrypoint `process_instruction` (lines 88-383): read the 8-byte instruction
discriminator (`.unwrap()` aborts on a short payload), compare it in order
against the three instruction tags, run the matching handler on
`_instruction_data[8..]`, and fail with `InvalidInstructionData` when no tag
matches. -/
def process_instruction (program_id : Nat) (accounts : List AccountInfo) (env : Env)
    (instruction_data : List Nat) : Outcome :=
  match ixDis8 instruction_data with
  | none => .panic
  | some ix_dis =>
    if ix_dis = create_voting_ix then
      createPollH program_id accounts env (instruction_data.drop 8)
    else if ix_dis = vote_ix then
      castVoteH program_id accounts env (instruction_data.drop 8)
    else if ix_dis = update_vote_ix then
      updateVoteH program_id accounts env (instruction_data.drop 8)
    else .err .invalidInstructionData

/-! ## Bundled validation premises

The checks of each handler that precede its time-window comparison, stated
as one predicate so that boundary theorems can assume "all other validation
checks pass" without repeating the list. -/

/-- All CastVote checks other than the two time-window comparisons: the four
account-flag checks, payload decode, poll-address match (from the
instruction's title), poll ownership, poll leading tag, poll decode, and the
voter-address match (from the decoded poll record's stored title). -/
def castVoteChecks (program_id : Nat) (user va uva sp : AccountInfo)
    (data : List Nat) (ixv : VoteInstruction) (pr : VoteMainAccount) : Prop :=
  user.is_signer = true ∧ user.is_writable = true ∧ uva.is_writable = true ∧
  sp.key = Pubkey.sysprog ∧
  decodeVoteInstruction data = some ixv ∧
  va.key = (find_program_address (votePollSeeds ixv.vote_title) program_id).1 ∧
  va.owner = Pubkey.ext program_id ∧
  head8 va.data = vote_acc ∧
  decodePollData va.data = Except.ok pr ∧
  uva.key = (find_program_address (voterRecordSeeds pr.title user.key.raw) program_id).1

/-- All UpdateVote checks other than the two time-window comparisons and the
voter-record tag/decode steps (which come after the time checks): signer,
the two ownership checks, writability, payload decode, title length, and the
two address matches (both from the instruction's title). -/
def updateVoteChecks (program_id : Nat) (user va uva : AccountInfo)
    (data : List Nat) (ixu : UpdateVoteInstruction) (pr : VoteMainAccount) : Prop :=
  user.is_signer = true ∧ va.owner = Pubkey.ext program_id ∧
  uva.owner = Pubkey.ext program_id ∧ uva.is_writable = true ∧
  decodeUpdateVoteInstruction data = some ixu ∧
  10 ≤ ixu.vote_title.length ∧
  va.key = (find_program_address (votePollSeeds ixu.vote_title) program_id).1 ∧
  uva.key = (find_program_address (voterRecordSeeds ixu.vote_title user.key.raw) program_id).1 ∧
  head8 va.data = vote_acc ∧
  decodePollData va.data = Except.ok pr

/-! ## Concrete fixtures

Used by the witness and counterexample theorems below.  The program id is 7,
the voter's key is `ext 5`, and the poll title is the 14-byte
"Best Pet Ever!" from the spec's Scenario A. -/

/-- Example program id. -/
def pidEx : Nat := 7

/-- Example environment with the given clock reading. -/
def envEx (t : Nat) : Env := ⟨t, fun _ => 0⟩

/-- Title "Best Pet Ever!" as bytes (length 14). -/
def titleEx : List Nat := strBytes "Best Pet Ever!"

/-- Title "short" as bytes (length 5 < 10). -/
def shortTitleEx : List Nat := strBytes "short"

/-- The invoking voter: signer, writable. -/
def userEx : AccountInfo := ⟨.ext 5, true, true, .sysprog, .empty⟩

/-- Same account but not a signer. -/
def userNoSignEx : AccountInfo := ⟨.ext 5, false, true, .sysprog, .empty⟩

/-- Same account but not writable. -/
def userNoWriteEx : AccountInfo := ⟨.ext 5, true, false, .sysprog, .empty⟩

/-- The system-program account reference. -/
def sysEx : AccountInfo := ⟨.sysprog, false, false, .sysprog, .empty⟩

/-- A stored poll record: window [1000, 87400], title "Best Pet Ever!". -/
def pollRecEx : VoteMainAccount := ⟨vote_acc, .ext 5, 1000, 87400, titleEx⟩

/-- The poll account at the address CastVote/UpdateVote expect
(separator "vote_account"), holding `pollRecEx`, owned by the program. -/
def pollAcctEx : AccountInfo :=
  ⟨(find_program_address (votePollSeeds titleEx) pidEx).1, false, true,
    .ext pidEx, .poll pollRecEx⟩

/-- The poll account at the address CreatePoll actually derives and creates
(separator "voting_account"), holding the same record. -/
def createdPollAcctEx : AccountInfo :=
  ⟨(find_program_address (createPollSeeds titleEx) pidEx).1, false, true,
    .ext pidEx, .poll pollRecEx⟩

/-- The voter-record account before the first vote: at the derived voter
address, writable, not yet allocated. -/
def uvEmptyEx : AccountInfo :=
  ⟨(find_program_address (voterRecordSeeds titleEx (Pubkey.ext 5).raw) pidEx).1,
    false, true, .sysprog, .empty⟩

/-- A stored voter record from a previous CastVote at time 1500. -/
def voterRecEx : UserVotingAccount := ⟨user_voting_acc, 1500, true, titleEx⟩

/-- The voter-record account holding `voterRecEx`, owned by the program. -/
def uvFilledEx : AccountInfo :=
  ⟨(find_program_address (voterRecordSeeds titleEx (Pubkey.ext 5).raw) pidEx).1,
    false, true, .ext pidEx, .voter voterRecEx⟩

/-- CreatePoll's target poll account (separator "voting_account"), fresh. -/
def pdaEx : AccountInfo :=
  ⟨(find_program_address (createPollSeeds titleEx) pidEx).1, false, true, .sysprog, .empty⟩

/-- CreatePoll's target poll account for the short title, fresh. -/
def pdaShortEx : AccountInfo :=
  ⟨(find_program_address (createPollSeeds shortTitleEx) pidEx).1, false, true,
    .sysprog, .empty⟩

/-- Borsh payload of `VoteInstruction { vote: true, vote_title: titleEx }`. -/
def voteDataEx : List Nat := 1 :: 14 :: 0 :: 0 :: 0 :: titleEx

/-- Borsh payload of `UpdateVoteInstruction { vote: false, vote_title: titleEx }`. -/
def updateDataEx : List Nat := 0 :: 14 :: 0 :: 0 :: 0 :: titleEx

/-- Borsh payload of `CreateVotingInstruction { starts_at: 1000, ends_at:
87400, title: titleEx }`. -/
def createDataEx : List Nat := [232, 3, 0, 0, 104, 85, 1, 0, 14, 0, 0, 0] ++ titleEx

/-- Same CreatePoll payload but with the 5-byte title "short". -/
def createDataShortEx : List Nat := [232, 3, 0, 0, 104, 85, 1, 0, 5, 0, 0, 0] ++ shortTitleEx

/-- CreatePoll payload with starts_at = 1000, ends_at = 1210601 (duration
1209601 = MAX_VOTING_TIME + 1). -/
def createDataLongEx : List Nat := [232, 3, 0, 0, 233, 120, 18, 0, 14, 0, 0, 0] ++ titleEx

end Voting

namespace Voting

/-! # Helper evaluation and inversion lemmas (shared) -/

/-- An outcome that is an error is neither a success effect nor an abort. -/
theorem Outcome.isErr_ne (o : Outcome) (h : o.isErr = true) :
    (∀ e, o ≠ Outcome.ok e) ∧ o ≠ Outcome.panic := by
  cases o <;> simp_all [Outcome.isErr]

/-- Under all CastVote checks up to the time window, the handler reduces to
the two time comparisons; past them every run reaches the write-back and
aborts on the `RefCell` double borrow. -/
theorem castVoteH_eval (program_id : Nat) (user va uva sp : AccountInfo)
    (rest : List AccountInfo) (env : Env) (data : List Nat)
    (ixv : VoteInstruction) (pr : VoteMainAccount)
    (h : castVoteChecks program_id user va uva sp data ixv pr) :
    castVoteH program_id (user :: va :: uva :: sp :: rest) env data =
      if env.current_time < pr.starts_at then Outcome.err (.custom .votingNotStarted)
      else if pr.ends_at < env.current_time then Outcome.err (.custom .votingEnded)
      else Outcome.panic := by
  obtain ⟨h1, h2, h3, h4, h5, h6, h7, h8, h9, h10⟩ := h
  simp only [castVoteH, castVoteChecked, h1, h2, h3, h4, h5, h6, h7, h8, h9, h10]
  simp [find_program_address, create_program_address, decodeVoterData]

/-- Under all UpdateVote checks up to the time window, the handler reduces
to the two time comparisons followed by the voter-record tag check and
decode; past them every run reaches the write-back and aborts on the
`RefCell` double borrow. -/
theorem updateVoteH_eval (program_id : Nat) (user va uva : AccountInfo)
    (rest : List AccountInfo) (env : Env) (data : List Nat)
    (ixu : UpdateVoteInstruction) (pr : VoteMainAccount)
    (h : updateVoteChecks program_id user va uva data ixu pr) :
    updateVoteH program_id (user :: va :: uva :: rest) env data =
      if env.current_time < pr.starts_at then Outcome.err (.custom .votingNotStarted)
      else if pr.ends_at ≤ env.current_time then Outcome.err (.custom .votingEnded)
      else if head8 uva.data ≠ user_voting_acc then Outcome.err .invalidAccountData
      else
        match decodeVoterData uva.data with
        | .error e => Outcome.err e
        | .ok _ => Outcome.panic := by
  obtain ⟨h1, h2, h3, h4, h5, h6, h7, h8, h9, h10⟩ := h
  simp only [updateVoteH, updateVoteChecked, h1, h2, h3, h4, h5, h6, h7, h8, h9, h10]
  simp [find_program_address, create_program_address, Nat.not_lt.mpr h6]

/-- The voter-record decoder only ever fails with a borsh decode error. -/
theorem decodeVoterData_error (d : AccountData) (e : ProgErr)
    (h : decodeVoterData d = .error e) : e = .borshIoError := by
  cases d <;> simp [decodeVoterData] at h
  exact h.symm

/-- The poll-record decoder only ever fails with a borsh decode error. -/
theorem decodePollData_error (d : AccountData) (e : ProgErr)
    (h : decodePollData d = .error e) : e = .borshIoError := by
  cases d <;> simp [decodePollData] at h
  exact h.symm

/-- The signer seed list CreatePoll passes to the allocation never derives
the poll address it is creating: the two seed lists differ (already in
length: four seeds against three). -/
theorem createPoll_signerSeeds_never_authorize (title userRaw : List Nat)
    (bump : Nat) (program_id : Nat) :
    create_program_address (createPollSignerSeeds title userRaw bump) program_id ≠
      (find_program_address (createPollSeeds title) program_id).1 := by
  simp [create_program_address, find_program_address, createPollSignerSeeds, createPollSeeds]

/-- After a well-formed decode, CreatePoll always ends in a `ProgramError`:
every run either fails a check or reaches the allocation, whose signer
seeds never authorize the derived poll address, so neither the success
effect nor the write-back abort is ever reached. -/
theorem createPollChecked_isErr (program_id : Nat) (user pda sp : AccountInfo)
    (env : Env) (ix : CreateVotingInstruction) :
    (createPollChecked program_id user pda sp env ix).isErr = true := by
  simp only [createPollChecked]
  by_cases h1 : user.is_signer = false
  · rw [if_pos h1]; rfl
  rw [if_neg h1]
  by_cases h2 : user.is_writable = false
  · rw [if_pos h2]; rfl
  rw [if_neg h2]
  by_cases h3 : pda.is_writable = false
  · rw [if_pos h3]; rfl
  rw [if_neg h3]
  by_cases h4 : sp.key ≠ Pubkey.sysprog
  · rw [if_pos h4]; rfl
  rw [if_neg h4]
  by_cases h5 : (find_program_address (createPollSeeds ix.title) program_id).1 ≠ pda.key
  · rw [if_pos h5]; rfl
  rw [if_neg h5]
  by_cases h6 : ix.starts_at < env.current_time
  · rw [if_pos h6]; rfl
  rw [if_neg h6]
  by_cases h7 : ix.ends_at ≤ ix.starts_at
  · rw [if_pos h7]; rfl
  rw [if_neg h7]
  by_cases h8 : ix.title.length < 10
  · rw [if_pos h8]; rfl
  rw [if_neg h8]
  by_cases h9 : MAX_VOTING_TIME < ix.ends_at - ix.starts_at
  · rw [if_pos h9]; rfl
  rw [if_neg h9]
  rw [if_pos (createPoll_signerSeeds_never_authorize ix.title user.key.raw
    (find_program_address (createPollSeeds ix.title) program_id).2 program_id)]
  rfl

/-- CreatePoll always ends in a `ProgramError`, whatever the accounts,
clock and payload: it never succeeds and never reaches its own write-back
abort. -/
theorem createPollH_isErr (program_id : Nat) (accounts : List AccountInfo)
    (env : Env) (data : List Nat) :
    (createPollH program_id accounts env data).isErr = true := by
  match accounts with
  | [] => rfl
  | [_] => rfl
  | [_, _] => rfl
  | user :: pda :: sp :: rest =>
    rcases hdec : decodeCreateVotingInstruction data with _ | ix
    · simp only [createPollH, hdec]
      rfl
    · simp only [createPollH, hdec]
      exact createPollChecked_isErr program_id user pda sp env ix

/-- With a short title, UpdateVote's checked phase fails immediately with
`TitleInvalidLength` (its first check after decoding). -/
theorem updateVoteChecked_shortTitle (program_id : Nat)
    (user va uva : AccountInfo) (env : Env) (ix : UpdateVoteInstruction)
    (hlen : ix.vote_title.length < 10) :
    updateVoteChecked program_id user va uva env ix =
      Outcome.err (.custom .titleInvalidLength) := by
  rw [updateVoteChecked, if_pos hlen]

/-- With a short title, UpdateVote always ends in a `ProgramError`: the
title-length check (or an earlier check) fires before any write or
abort. -/
theorem updateVoteH_shortTitle_isErr (program_id : Nat)
    (accounts : List AccountInfo) (env : Env) (data : List Nat)
    (ix : UpdateVoteInstruction)
    (hdec : decodeUpdateVoteInstruction data = some ix)
    (hlen : ix.vote_title.length < 10) :
    (updateVoteH program_id accounts env data).isErr = true := by
  match accounts with
  | [] => rfl
  | [_] => rfl
  | [_, _] => rfl
  | user :: va :: uva :: rest =>
    simp only [updateVoteH, hdec]
    by_cases h1 : user.is_signer = false
    · rw [if_pos h1]; rfl
    rw [if_neg h1]
    by_cases h2 : va.owner ≠ Pubkey.ext program_id
    · rw [if_pos h2]; rfl
    rw [if_neg h2]
    by_cases h3 : uva.owner ≠ Pubkey.ext program_id
    · rw [if_pos h3]; rfl
    rw [if_neg h3]
    by_cases h4 : uva.is_writable = false
    · rw [if_pos h4]; rfl
    rw [if_neg h4]
    rw [updateVoteChecked_shortTitle program_id user va uva env ix hlen]
    rfl

/-- The three instruction tags are pairwise distinct byte strings. -/
theorem tags_distinct :
    vote_ix ≠ create_voting_ix ∧ update_vote_ix ≠ create_voting_ix ∧
      update_vote_ix ≠ vote_ix := by decide

/-! # Claims -/

/-- C1 (code bug): the poll-address derivations disagree across handlers.
For the title "Best Pet Ever!", the address CreatePoll derives (domain
separator "voting_account", line 137) differs from the address CastVote and
UpdateVote recompute from the instruction's title (separator
"vote_account", lines 224 and 330); consequently both voting handlers
reject, with `InvalidPdaAddress`, the very poll account CreatePoll would
have created, with every other check passing. -/
theorem claim1_pollAddressSeparatorMismatch :
    (find_program_address (createPollSeeds titleEx) pidEx).1 ≠
      (find_program_address (votePollSeeds titleEx) pidEx).1 ∧
    castVoteH pidEx [userEx, createdPollAcctEx, uvEmptyEx, sysEx] (envEx 1500) voteDataEx =
      Outcome.err (.custom .invalidPdaAddress) ∧
    updateVoteH pidEx [userEx, createdPollAcctEx, uvFilledEx] (envEx 2000) updateDataEx =
      Outcome.err (.custom .invalidPdaAddress) :=
  ⟨by decide, rfl, rfl⟩

/-- C2 (code bug): the seed set CreatePoll uses to authorize the storage
allocation (lines 178-183: "new_voting_account", title, the user key, bump)
is not the derivation seed set plus its bump ("voting_account", title,
bump); as a consequence a CreatePoll invocation that passes every
validation check still fails at the allocation step, because the signer
seeds never authorize the derived poll address. -/
theorem claim2_allocationSeedsMismatch :
    createPollSignerSeeds titleEx (Pubkey.ext 5).raw
        (find_program_address (createPollSeeds titleEx) pidEx).2 ≠
      createPollSeeds titleEx ++
        [[(find_program_address (createPollSeeds titleEx) pidEx).2]] ∧
    createPollH pidEx [userEx, pdaEx, sysEx] (envEx 900) createDataEx =
      Outcome.err .missingRequiredSignature :=
  ⟨by decide, rfl⟩

/-- C3 counterexample: on the empty payload the dispatcher's read of the
first 8 bytes panics — the invocation aborts instead of terminating with a
result, so dispatch is not total over payloads shorter than 8 bytes. -/
theorem claim3_shortPayloadAborts :
    process_instruction pidEx [] (envEx 0) [] = Outcome.panic ∧
    Outcome.panic ≠ Outcome.err ProgErr.invalidInstructionData :=
  ⟨rfl, by decide⟩

/-- C3 (amended): the dispatcher reads the first 8 payload bytes as the
operation tag and compares it in order against the three instruction tags,
dispatching to the matching handler; when none matches it returns the
"unrecognized instruction" error.  This is total for payloads of length at
least 8; for shorter payloads the unwrap of the tag read aborts. -/
theorem claim3_dispatchTotality (program_id : Nat) (accounts : List AccountInfo)
    (env : Env) (d : List Nat) :
    (d.length < 8 → process_instruction program_id accounts env d = .panic) ∧
    (8 ≤ d.length →
      ((d.take 8 = create_voting_ix →
        process_instruction program_id accounts env d =
          createPollH program_id accounts env (d.drop 8)) ∧
      (d.take 8 ≠ create_voting_ix → d.take 8 = vote_ix →
        process_instruction program_id accounts env d =
          castVoteH program_id accounts env (d.drop 8)) ∧
      (d.take 8 ≠ create_voting_ix → d.take 8 ≠ vote_ix → d.take 8 = update_vote_ix →
        process_instruction program_id accounts env d =
          updateVoteH program_id accounts env (d.drop 8)) ∧
      (d.take 8 ≠ create_voting_ix → d.take 8 ≠ vote_ix → d.take 8 ≠ update_vote_ix →
        process_instruction program_id accounts env d = .err .invalidInstructionData))) := by
  constructor
  · intro hlen
    simp [process_instruction, ixDis8, Nat.not_le.mpr hlen]
  · intro hlen
    have hd : ixDis8 d = some (d.take 8) := by simp [ixDis8, hlen]
    refine ⟨?_, ?_, ?_, ?_⟩
    · intro hc
      simp [process_instruction, hd, hc]
    · intro hc hv
      simp [process_instruction, hd, hc, hv, tags_distinct.1]
    · intro hc hv hu
      simp [process_instruction, hd, hc, hv, hu, tags_distinct.2.1, tags_distinct.2.2]
    · intro hc hv hu
      simp [process_instruction, hd, hc, hv, hu]

/-- C3 witness: a payload of 8 bytes matching no tag yields the
"unrecognized instruction" error. -/
theorem claim3_dispatchTotalityWitness :
    process_instruction pidEx [] (envEx 0) [9, 9, 9, 9, 9, 9, 9, 9] =
      Outcome.err ProgErr.invalidInstructionData :=
  ((claim3_dispatchTotality pidEx [] (envEx 0) [9, 9, 9, 9, 9, 9, 9, 9]).2
    (by decide)).2.2.2 (by decide) (by decide) (by decide)

/-- C4 (code bug): the end-bound comparisons are asymmetric exactly as
stated — against the fixture poll (window [1000, 87400]) with every other
check passing, CastVote at the clock reading 87400 = `ends_at` is not
rejected with `VotingEnded` (its bound is inclusive: 87401 is), while
UpdateVote at 87400 is rejected with `VotingEnded` (its bound is strict:
87399 is not) — but CastVote at the inclusive boundary does not succeed as
the claim states: having passed every check it aborts at the write-back
(`borrow_mut` at line 296 while the line-290 borrow guard is live), and
likewise UpdateVote inside the window aborts at line 375. -/
theorem claim4_endBoundaryAsymmetry :
    castVoteH pidEx [userEx, pollAcctEx, uvEmptyEx, sysEx] (envEx 87400) voteDataEx =
      Outcome.panic ∧
    castVoteH pidEx [userEx, pollAcctEx, uvEmptyEx, sysEx] (envEx 87400) voteDataEx ≠
      Outcome.err (.custom .votingEnded) ∧
    castVoteH pidEx [userEx, pollAcctEx, uvEmptyEx, sysEx] (envEx 87401) voteDataEx =
      Outcome.err (.custom .votingEnded) ∧
    updateVoteH pidEx [userEx, pollAcctEx, uvFilledEx] (envEx 87400) updateDataEx =
      Outcome.err (.custom .votingEnded) ∧
    updateVoteH pidEx [userEx, pollAcctEx, uvFilledEx] (envEx 87399) updateDataEx =
      Outcome.panic :=
  ⟨rfl, by decide, rfl, rfl, rfl⟩

/-- C5 counterexample: for a CreatePoll input whose title is the 5-byte
"short" but whose user is not a signer, the operation fails with
`UserSigningNeeded`, not `TitleInvalidLength` — the signer check precedes
the title-length check, so the claim's universally quantified error
identity fails. -/
theorem claim5_shortTitleEarlierError :
    createPollH pidEx [userNoSignEx, pdaShortEx, sysEx] (envEx 900) createDataShortEx =
      Outcome.err (.custom .userSigningNeeded) ∧
    Outcome.err (.custom .userSigningNeeded) ≠
      Outcome.err (.custom .titleInvalidLength) :=
  ⟨rfl, by decide⟩

/-- C5 (amended): for every title (CreatePoll) or vote_title (UpdateVote)
shorter than 10 bytes the operation can never succeed (nor reach a
write-back abort: it terminates with an error before any write), and the
error is `TitleInvalidLength` exactly when the checks that precede the
title-length check pass; otherwise the earlier failing check's error is
returned, as the counterexample shows. -/
theorem claim5_shortTitleRejected :
    (∀ program_id accounts env data ix,
      decodeCreateVotingInstruction data = some ix → ix.title.length < 10 →
      (∀ e, createPollH program_id accounts env data ≠ Outcome.ok e) ∧
      createPollH program_id accounts env data ≠ Outcome.panic) ∧
    (∀ program_id accounts env data ix,
      decodeUpdateVoteInstruction data = some ix → ix.vote_title.length < 10 →
      (∀ e, updateVoteH program_id accounts env data ≠ Outcome.ok e) ∧
      updateVoteH program_id accounts env data ≠ Outcome.panic) ∧
    (∀ program_id user pda sp rest env data ix,
      decodeCreateVotingInstruction data = some ix →
      user.is_signer = true → user.is_writable = true → pda.is_writable = true →
      sp.key = Pubkey.sysprog →
      (find_program_address (createPollSeeds ix.title) program_id).1 = pda.key →
      env.current_time ≤ ix.starts_at → ix.starts_at < ix.ends_at →
      ix.title.length < 10 →
      createPollH program_id (user :: pda :: sp :: rest) env data =
        Outcome.err (.custom .titleInvalidLength)) ∧
    (∀ program_id user va uva rest env data ix,
      decodeUpdateVoteInstruction data = some ix →
      user.is_signer = true → va.owner = Pubkey.ext program_id →
      uva.owner = Pubkey.ext program_id → uva.is_writable = true →
      ix.vote_title.length < 10 →
      updateVoteH program_id (user :: va :: uva :: rest) env data =
        Outcome.err (.custom .titleInvalidLength)) := by
  refine ⟨?_, ?_, ?_, ?_⟩
  · intro program_id accounts env data ix _ _
    exact Outcome.isErr_ne _ (createPollH_isErr program_id accounts env data)
  · intro program_id accounts env data ix hdec hlen
    exact Outcome.isErr_ne _
      (updateVoteH_shortTitle_isErr program_id accounts env data ix hdec hlen)
  · intro program_id user pda sp rest env data ix hdec h1 h2 h3 h4 h5 h6 h7 hlen
    simp only [createPollH, hdec, createPollChecked]
    rw [if_neg (by simp [h1]), if_neg (by simp [h2]), if_neg (by simp [h3]),
      if_neg (by simp [h4]), if_neg (by simp [h5]), if_neg (by omega),
      if_neg (by omega), if_pos hlen]
  · intro program_id user va uva rest env data ix hdec h1 h2 h3 h4 hlen
    simp only [updateVoteH, hdec]
    rw [if_neg (by simp [h1]), if_neg (by simp [h2]), if_neg (by simp [h3]),
      if_neg (by simp [h4])]
    exact updateVoteChecked_shortTitle program_id user va uva env ix hlen

/-- C5 witness: with every earlier CreatePoll check passing and the 5-byte
title "short", the error is `TitleInvalidLength`. -/
theorem claim5_shortTitleRejectedWitness :
    createPollH pidEx [userEx, pdaShortEx, sysEx] (envEx 900) createDataShortEx =
      Outcome.err (.custom .titleInvalidLength) :=
  claim5_shortTitleRejected.2.2.1 pidEx userEx pdaShortEx sysEx [] (envEx 900)
    createDataShortEx ⟨1000, 87400, shortTitleEx⟩ (by decide) rfl rfl rfl rfl
    (by decide) (by decide) (by decide) (by decide)

/-- C6 (code bug): the spec's Scenario B input — CastVote(vote = true,
title "Best Pet Ever!") at time 1500 against the fixture poll — passes
every validation check (first conjunct, by evaluation), yet the handler
does not return success with the expected voter record: it aborts at the
write-back, where `borrow_mut()` at line 296 runs while the `Ref` guard
from line 290 is still live, so the voter record is never written. -/
theorem claim6_castVoteWriteAborts :
    castVoteChecks pidEx userEx pollAcctEx uvEmptyEx sysEx voteDataEx
      ⟨true, titleEx⟩ pollRecEx ∧
    pollRecEx.starts_at ≤ 1500 ∧ (1500 : Nat) ≤ pollRecEx.ends_at ∧
    castVoteH pidEx [userEx, pollAcctEx, uvEmptyEx, sysEx] (envEx 1500) voteDataEx =
      Outcome.panic ∧
    castVoteH pidEx [userEx, pollAcctEx, uvEmptyEx, sysEx] (envEx 1500) voteDataEx ≠
      Outcome.ok ⟨[⟨userEx.key, uvEmptyEx.key, 0, 67, pidEx,
        voterRecordSeeds titleEx userEx.key.raw ++ [[255]]⟩], none,
        some ⟨user_voting_acc, 1500, true, titleEx⟩⟩ :=
  ⟨⟨rfl, rfl, rfl, rfl, by decide, rfl, rfl, by decide, rfl, rfl⟩,
    by decide, by decide, rfl, by decide⟩

/-- C7: CreatePoll evaluates its nine precondition checks in exactly the
stated order, returning the first failing check's error immediately, and no
run produces a success effect or reaches a write (account data would be
written only after every check, and in fact the allocation guard always
fails first). -/
theorem claim7_createPollCheckOrder :
    ∀ program_id user pda sp rest env data ix,
      decodeCreateVotingInstruction data = some ix →
      ((user.is_signer = false →
        createPollH program_id (user :: pda :: sp :: rest) env data =
          Outcome.err (.custom .userSigningNeeded)) ∧
      (user.is_signer = true → user.is_writable = false →
        createPollH program_id (user :: pda :: sp :: rest) env data =
          Outcome.err (.custom .usersAccountMustBeMutable)) ∧
      (user.is_signer = true → user.is_writable = true → pda.is_writable = false →
        createPollH program_id (user :: pda :: sp :: rest) env data =
          Outcome.err (.custom .pdasAccountMustBeMutable)) ∧
      (user.is_signer = true → user.is_writable = true → pda.is_writable = true →
        sp.key ≠ Pubkey.sysprog →
        createPollH program_id (user :: pda :: sp :: rest) env data =
          Outcome.err (.custom .invalidSystemProgram)) ∧
      (user.is_signer = true → user.is_writable = true → pda.is_writable = true →
        sp.key = Pubkey.sysprog →
        (find_program_address (createPollSeeds ix.title) program_id).1 ≠ pda.key →
        createPollH program_id (user :: pda :: sp :: rest) env data =
          Outcome.err (.custom .invalidPdaAddress)) ∧
      (user.is_signer = true → user.is_writable = true → pda.is_writable = true →
        sp.key = Pubkey.sysprog →
        (find_program_address (createPollSeeds ix.title) program_id).1 = pda.key →
        ix.starts_at < env.current_time →
        createPollH program_id (user :: pda :: sp :: rest) env data =
          Outcome.err (.custom .invalidStartingTime)) ∧
      (user.is_signer = true → user.is_writable = true → pda.is_writable = true →
        sp.key = Pubkey.sysprog →
        (find_program_address (createPollSeeds ix.title) program_id).1 = pda.key →
        env.current_time ≤ ix.starts_at → ix.ends_at ≤ ix.starts_at →
        createPollH program_id (user :: pda :: sp :: rest) env data =
          Outcome.err (.custom .invalidEndingTime)) ∧
      (user.is_signer = true → user.is_writable = true → pda.is_writable = true →
        sp.key = Pubkey.sysprog →
        (find_program_address (createPollSeeds ix.title) program_id).1 = pda.key →
        env.current_time ≤ ix.starts_at → ix.starts_at < ix.ends_at →
        ix.title.length < 10 →
        createPollH program_id (user :: pda :: sp :: rest) env data =
          Outcome.err (.custom .titleInvalidLength)) ∧
      (user.is_signer = true → user.is_writable = true → pda.is_writable = true →
        sp.key = Pubkey.sysprog →
        (find_program_address (createPollSeeds ix.title) program_id).1 = pda.key →
        env.current_time ≤ ix.starts_at → ix.starts_at < ix.ends_at →
        10 ≤ ix.title.length → MAX_VOTING_TIME < ix.ends_at - ix.starts_at →
        createPollH program_id (user :: pda :: sp :: rest) env data =
          Outcome.err (.custom .maxVotingTimeExceeded)) ∧
      ((∀ e, createPollH program_id (user :: pda :: sp :: rest) env data ≠
          Outcome.ok e) ∧
        createPollH program_id (user :: pda :: sp :: rest) env data ≠
          Outcome.panic)) := by
  intro program_id user pda sp rest env data ix hdec
  refine ⟨?_, ?_, ?_, ?_, ?_, ?_, ?_, ?_, ?_, ?_⟩
  · intro h1
    simp only [createPollH, hdec, createPollChecked]
    rw [if_pos h1]
  · intro h1 h2
    simp only [createPollH, hdec, createPollChecked]
    rw [if_neg (by simp [h1]), if_pos h2]
  · intro h1 h2 h3
    simp only [createPollH, hdec, createPollChecked]
    rw [if_neg (by simp [h1]), if_neg (by simp [h2]), if_pos h3]
  · intro h1 h2 h3 h4
    simp only [createPollH, hdec, createPollChecked]
    rw [if_neg (by simp [h1]), if_neg (by simp [h2]), if_neg (by simp [h3]),
      if_pos h4]
  · intro h1 h2 h3 h4 h5
    simp only [createPollH, hdec, createPollChecked]
    rw [if_neg (by simp [h1]), if_neg (by simp [h2]), if_neg (by simp [h3]),
      if_neg (by simp [h4]), if_pos h5]
  · intro h1 h2 h3 h4 h5 h6
    simp only [createPollH, hdec, createPollChecked]
    rw [if_neg (by simp [h1]), if_neg (by simp [h2]), if_neg (by simp [h3]),
      if_neg (by simp [h4]), if_neg (by simp [h5]), if_pos h6]
  · intro h1 h2 h3 h4 h5 h6 h7
    simp only [createPollH, hdec, createPollChecked]
    rw [if_neg (by simp [h1]), if_neg (by simp [h2]), if_neg (by simp [h3]),
      if_neg (by simp [h4]), if_neg (by simp [h5]), if_neg (by omega), if_pos h7]
  · intro h1 h2 h3 h4 h5 h6 h7 h8
    simp only [createPollH, hdec, createPollChecked]
    rw [if_neg (by simp [h1]), if_neg (by simp [h2]), if_neg (by simp [h3]),
      if_neg (by simp [h4]), if_neg (by simp [h5]), if_neg (by omega),
      if_neg (by omega), if_pos h8]
  · intro h1 h2 h3 h4 h5 h6 h7 h8 h9
    simp only [createPollH, hdec, createPollChecked]
    rw [if_neg (by simp [h1]), if_neg (by simp [h2]), if_neg (by simp [h3]),
      if_neg (by simp [h4]), if_neg (by simp [h5]), if_neg (by omega),
      if_neg (by omega), if_neg (by omega), if_pos h9]
  · exact Outcome.isErr_ne _
      (createPollH_isErr program_id (user :: pda :: sp :: rest) env data)

/-- C7 witness: with the user a signer but not writable and a short-title
payload, the error is the second check's `UsersAccountMustBeMutable` — the
checks fire in order. -/
theorem claim7_createPollCheckOrderWitness :
    createPollH pidEx [userNoWriteEx, pdaShortEx, sysEx] (envEx 900) createDataShortEx =
      Outcome.err (.custom .usersAccountMustBeMutable) :=
  (claim7_createPollCheckOrder pidEx userNoWriteEx pdaShortEx sysEx [] (envEx 900)
    createDataShortEx ⟨1000, 87400, shortTitleEx⟩ (by decide)).2.1 rfl rfl

/-- C8: when the checks preceding the duration check pass, a duration
exceeding `MAX_VOTING_TIME` = 1209600 fails with `MaxVotingTimeExceeded`;
conversely, whenever CreatePoll returns `MaxVotingTimeExceeded`, the
payload decoded to fields with `starts_at < ends_at`, so the unsigned
difference `ends_at - starts_at` equals the exact integer difference and
never underflows. -/
theorem claim8_maxDurationNoUnderflow :
    (∀ program_id user pda sp rest env data ix,
      decodeCreateVotingInstruction data = some ix →
      user.is_signer = true → user.is_writable = true → pda.is_writable = true →
      sp.key = Pubkey.sysprog →
      (find_program_address (createPollSeeds ix.title) program_id).1 = pda.key →
      env.current_time ≤ ix.starts_at → ix.starts_at < ix.ends_at →
      10 ≤ ix.title.length → MAX_VOTING_TIME < ix.ends_at - ix.starts_at →
      createPollH program_id (user :: pda :: sp :: rest) env data =
        Outcome.err (.custom .maxVotingTimeExceeded)) ∧
    (∀ program_id accounts env data,
      createPollH program_id accounts env data =
        Outcome.err (.custom .maxVotingTimeExceeded) →
      ∃ ix, decodeCreateVotingInstruction data = some ix ∧
        ix.starts_at < ix.ends_at ∧
        ((ix.ends_at : ℤ) - (ix.starts_at : ℤ) = ((ix.ends_at - ix.starts_at : Nat) : ℤ))) := by
  constructor
  · intro program_id user pda sp rest env data ix hdec h1 h2 h3 h4 h5 h6 h7 h8 h9
    simp only [createPollH, hdec, createPollChecked]
    rw [if_neg (by simp [h1]), if_neg (by simp [h2]), if_neg (by simp [h3]),
      if_neg (by simp [h4]), if_neg (by simp [h5]), if_neg (by omega),
      if_neg (by omega), if_neg (by omega), if_pos h9]
  · intro program_id accounts env data h
    match accounts with
    | [] => exact absurd h (by simp [createPollH])
    | [_] => exact absurd h (by simp [createPollH])
    | [_, _] => exact absurd h (by simp [createPollH])
    | user :: pda :: sp :: rest =>
      rcases hdec : decodeCreateVotingInstruction data with _ | ix
      · rw [createPollH] at h
        simp only [hdec] at h
        exact absurd h (by simp)
      · simp only [createPollH, hdec, createPollChecked] at h
        by_cases h1 : user.is_signer = false
        · rw [if_pos h1] at h
          exact absurd h (by simp)
        rw [if_neg h1] at h
        by_cases h2 : user.is_writable = false
        · rw [if_pos h2] at h
          exact absurd h (by simp)
        rw [if_neg h2] at h
        by_cases h3 : pda.is_writable = false
        · rw [if_pos h3] at h
          exact absurd h (by simp)
        rw [if_neg h3] at h
        by_cases h4 : sp.key ≠ Pubkey.sysprog
        · rw [if_pos h4] at h
          exact absurd h (by simp)
        rw [if_neg h4] at h
        by_cases h5 : (find_program_address (createPollSeeds ix.title) program_id).1 ≠ pda.key
        · rw [if_pos h5] at h
          exact absurd h (by simp)
        rw [if_neg h5] at h
        by_cases h6 : ix.starts_at < env.current_time
        · rw [if_pos h6] at h
          exact absurd h (by simp)
        rw [if_neg h6] at h
        by_cases h7 : ix.ends_at ≤ ix.starts_at
        · rw [if_pos h7] at h
          exact absurd h (by simp)
        exact ⟨ix, rfl, by omega, by omega⟩

/-- C8 witness: a poll of duration 1209601 seconds (one over the two-week
maximum), with all earlier checks passing, fails with
`MaxVotingTimeExceeded`. -/
theorem claim8_maxDurationNoUnderflowWitness :
    createPollH pidEx [userEx, pdaEx, sysEx] (envEx 900) createDataLongEx =
      Outcome.err (.custom .maxVotingTimeExceeded) :=
  claim8_maxDurationNoUnderflow.1 pidEx userEx pdaEx sysEx [] (envEx 900)
    createDataLongEx ⟨1000, 1210601, titleEx⟩ (by decide) rfl rfl rfl rfl
    (by decide) (by decide) (by decide) (by decide) (by decide)

/-- C9 (code bug): the spec's Scenario D input — UpdateVote(vote = false)
at time 2000 over the fixture records — passes every validation check
(first three conjuncts, by evaluation), yet the handler does not rewrite
the voter record in place: it aborts at the write-back, where
`borrow_mut()` at line 375 runs while the lifetime-extended `Ref` guard
from line 367 is still live, so nothing (in particular neither
`vote_status` nor `last_time_voted`) is ever rewritten. -/
theorem claim9_updateVoteWriteAborts :
    updateVoteChecks pidEx userEx pollAcctEx uvFilledEx updateDataEx
      ⟨false, titleEx⟩ pollRecEx ∧
    head8 uvFilledEx.data = user_voting_acc ∧
    decodeVoterData uvFilledEx.data = Except.ok voterRecEx ∧
    updateVoteH pidEx [userEx, pollAcctEx, uvFilledEx] (envEx 2000) updateDataEx =
      Outcome.panic ∧
    updateVoteH pidEx [userEx, pollAcctEx, uvFilledEx] (envEx 2000) updateDataEx ≠
      Outcome.ok ⟨[], none, some ⟨user_voting_acc, 2000, false, titleEx⟩⟩ :=
  ⟨⟨rfl, rfl, rfl, rfl, by decide, by decide, rfl, rfl, by decide, rfl⟩,
    by decide, rfl, rfl, by decide⟩

/-- C10: a CastVote that passes all its checks (reaching the write-back
abort, the only terminal past them) requires the supplied voter account to
sit at the address derived from the decoded poll record's stored title,
while an UpdateVote reaching its write-back abort requires it at the
address derived from the instruction's `vote_title`; whenever those two
titles differ, the two derivations give different voter-record addresses
for the same voter. -/
theorem claim10_voterAddressSources :
    (∀ program_id : Nat, ∀ user va uva sp : AccountInfo, ∀ rest env data pr,
      decodePollData va.data = Except.ok pr →
      castVoteH program_id (user :: va :: uva :: sp :: rest) env data = Outcome.panic →
      uva.key =
        (find_program_address (voterRecordSeeds pr.title user.key.raw) program_id).1) ∧
    (∀ program_id : Nat, ∀ user va uva : AccountInfo, ∀ rest env data ixu,
      decodeUpdateVoteInstruction data = some ixu →
      updateVoteH program_id (user :: va :: uva :: rest) env data = Outcome.panic →
      uva.key =
        (find_program_address (voterRecordSeeds ixu.vote_title user.key.raw) program_id).1) ∧
    (∀ t₁ t₂ : List Nat, ∀ u : List Nat, ∀ program_id : Nat, t₁ ≠ t₂ →
      (find_program_address (voterRecordSeeds t₁ u) program_id).1 ≠
        (find_program_address (voterRecordSeeds t₂ u) program_id).1) := by
  refine ⟨?_, ?_, ?_⟩
  · intro program_id user va uva sp rest env data pr hpr h
    simp only [castVoteH] at h
    by_cases h1 : user.is_signer = false
    · rw [if_pos h1] at h
      exact Outcome.noConfusion h
    rw [if_neg h1] at h
    by_cases h2 : user.is_writable = false
    · rw [if_pos h2] at h
      exact Outcome.noConfusion h
    rw [if_neg h2] at h
    by_cases h3 : uva.is_writable = false
    · rw [if_pos h3] at h
      exact Outcome.noConfusion h
    rw [if_neg h3] at h
    by_cases h4 : sp.key ≠ Pubkey.sysprog
    · rw [if_pos h4] at h
      exact Outcome.noConfusion h
    rw [if_neg h4] at h
    split at h
    · exact Outcome.noConfusion h
    rename_i ixv hdec
    simp only [castVoteChecked] at h
    by_cases c1 : va.key ≠ (find_program_address (votePollSeeds ixv.vote_title) program_id).1
    · rw [if_pos c1] at h
      exact Outcome.noConfusion h
    rw [if_neg c1] at h
    by_cases c2 : va.owner ≠ Pubkey.ext program_id
    · rw [if_pos c2] at h
      exact Outcome.noConfusion h
    rw [if_neg c2] at h
    by_cases c3 : head8 va.data ≠ vote_acc
    · rw [if_pos c3] at h
      exact Outcome.noConfusion h
    rw [if_neg c3] at h
    rw [hpr] at h
    simp only [] at h
    by_cases c4 : env.current_time < pr.starts_at
    · rw [if_pos c4] at h
      exact Outcome.noConfusion h
    rw [if_neg c4] at h
    by_cases c5 : pr.ends_at < env.current_time
    · rw [if_pos c5] at h
      exact Outcome.noConfusion h
    rw [if_neg c5] at h
    by_cases c6 : (find_program_address (voterRecordSeeds pr.title user.key.raw) program_id).1 ≠ uva.key
    · rw [if_pos c6] at h
      exact Outcome.noConfusion h
    exact (not_not.mp c6).symm
  · intro program_id user va uva rest env data ixu hdec h
    simp only [updateVoteH, hdec] at h
    by_cases h1 : user.is_signer = false
    · rw [if_pos h1] at h
      exact Outcome.noConfusion h
    rw [if_neg h1] at h
    by_cases h2 : va.owner ≠ Pubkey.ext program_id
    · rw [if_pos h2] at h
      exact Outcome.noConfusion h
    rw [if_neg h2] at h
    by_cases h3 : uva.owner ≠ Pubkey.ext program_id
    · rw [if_pos h3] at h
      exact Outcome.noConfusion h
    rw [if_neg h3] at h
    by_cases h4 : uva.is_writable = false
    · rw [if_pos h4] at h
      exact Outcome.noConfusion h
    rw [if_neg h4] at h
    simp only [updateVoteChecked] at h
    by_cases c0 : ixu.vote_title.length < 10
    · rw [if_pos c0] at h
      exact Outcome.noConfusion h
    rw [if_neg c0] at h
    by_cases c1 : va.key ≠ (find_program_address (votePollSeeds ixu.vote_title) program_id).1
    · rw [if_pos c1] at h
      exact Outcome.noConfusion h
    rw [if_neg c1] at h
    by_cases c2 : uva.key ≠ (find_program_address (voterRecordSeeds ixu.vote_title user.key.raw) program_id).1
    · rw [if_pos c2] at h
      exact Outcome.noConfusion h
    exact not_not.mp c2
  · intro t₁ t₂ u program_id hne
    simpa [find_program_address, create_program_address, voterRecordSeeds] using hne

/-- C10 witness: with the same voter and program, the voter-record address
derived from the title "Best Pet Ever!" differs from the one derived from
the title "short". -/
theorem claim10_voterAddressSourcesWitness :
    (find_program_address (voterRecordSeeds titleEx (Pubkey.ext 5).raw) pidEx).1 ≠
      (find_program_address (voterRecordSeeds shortTitleEx (Pubkey.ext 5).raw) pidEx).1 :=
  claim10_voterAddressSources.2.2 titleEx shortTitleEx (Pubkey.ext 5).raw pidEx (by decide)

end Voting
